import Mathlib

/-!
# Scrollium: a windowed line scroller

A shallow embedding of `src/index.js`.  The `Scroller` object becomes a record,
each prototype method a function on that record, the DOM element it renders
into is the record `Element`, and the ambient animation-frame scheduler is the
record `FrameQueue`, threaded explicitly through the methods that call
`requestAnimationFrame`.  Numbers are integers (`Int`).
-/

namespace Scrollium

/-! ## The rendering surface -/

/-- The DOM element a Scroller renders into.  Only what the source reads and
assigns is kept: the content, the scroll offset, the element height and the
scroll extent.  The scroll extent is whatever the layout makes of the current
content, so it is an unknown function of the content.  The field
`contentWrites` counts the assignments to `innerHTML`; the source never reads
it. -/
structure Element where
  innerHTML : String
  scrollTop : Int
  offsetHeight : Int
  scrollHeightOf : String → Int
  contentWrites : Nat

/-- The property read `target.scrollHeight`. -/
def Element.scrollHeight (e : Element) : Int :=
  e.scrollHeightOf e.innerHTML

/-- The assignment `target.innerHTML = c`. -/
def Element.setInnerHTML (e : Element) (c : String) : Element :=
  { e with innerHTML := c, contentWrites := e.contentWrites + 1 }

/-- The assignment `target.scrollTop = n`: the element keeps the value that
was assigned. -/
def Element.setScrollTop (e : Element) (n : Int) : Element :=
  { e with scrollTop := n }

/-! ## The animation-frame scheduler -/

/-- The callbacks requested with `requestAnimationFrame` and not fired yet,
oldest first, each under its handle.  Every callback the source registers is
`this.refresh`, so the handle is all that is kept.  Handles are positive. -/
structure FrameQueue where
  lastHandle : Nat
  pending : List Nat

/-- The queue of a page on which nothing has been requested. -/
def FrameQueue.empty : FrameQueue :=
  { lastHandle := 0, pending := [] }

/-- The call `requestAnimationFrame(this.refresh)`: a fresh handle, and the
queue with that handle appended. -/
def requestAnimationFrame (q : FrameQueue) : Nat × FrameQueue :=
  (q.lastHandle + 1,
    { lastHandle := q.lastHandle + 1, pending := q.pending ++ [q.lastHandle + 1] })

/-! ## JavaScript helpers -/

/-- Truthiness of `this.animateRequest`: `null` and `0` are falsy. -/
def truthy : Option Nat → Bool
  | none => false
  | some n => n != 0

/-- The expression `v || d` for a numeric option `v`: `undefined` and `0` give
the default. -/
def orNumber (v : Option Int) (d : Int) : Int :=
  match v with
  | none => d
  | some n => if n = 0 then d else n

/-- The expression `v || d` for an array option `v`: every array is truthy. -/
def orLines (v : Option (List String)) (d : List String) : List String :=
  match v with
  | none => d
  | some ls => ls

/-- The expression `v || d` for a boolean option `v`. -/
def orBool (v : Option Bool) (d : Bool) : Bool :=
  match v with
  | none => d
  | some b => b || d

/-- The eager lodash function `_.slice(array, start, stop)`, with the index
handling of `Array.prototype.slice`: a negative index counts from the end, and
both indices are clamped to the array. -/
def baseSlice {α : Type} (xs : List α) (start stop : Int) : List α :=
  let len : Int := xs.length
  let k : Int := if start < 0 then max (len + start) 0 else min start len
  let fin : Int := if stop < 0 then max (len + stop) 0 else min stop len
  (xs.drop k.toNat).take (fin - k).toNat

/-- The chained lodash call `_(array).slice(start, stop)`, as lodash 4
evaluates it when the chain is unwrapped.  The wrapper is lazy and keeps a
view of the array: a negative `start` is `takeRight(-start)`, a positive one
`drop(start)`; a negative `stop` is `dropRight(-stop)`, any other
`take(stop - start)`.  When the view is the whole array lodash applies the
eager `_.slice` instead. -/
def slice {α : Type} (xs : List α) (start stop : Int) : List α :=
  let len : Int := xs.length
  let viewStart : Int := if start < 0 then max 0 (len + start) else start
  let viewEnd : Int :=
    if stop < 0 then len + stop else min len (viewStart + max (stop - start) 0)
  if viewStart = 0 ∧ viewEnd = len then baseSlice xs start stop
  else (xs.drop viewStart.toNat).take (viewEnd - viewStart).toNat

/-- The callback of the `map` in `_generateContent` (lines 30-37). -/
def blankToThinSpace (line : String) : String :=
  if line.length = 0 then "\u2009" else line

/-- What `str.split('\n')` returns, on the characters of the string: the
pieces between the newline characters. -/
def splitNewline : List Char → List (List Char)
  | [] => [[]]
  | c :: cs =>
    if c = '\n' then [] :: splitNewline cs
    else
      match splitNewline cs with
      | [] => [[c]]
      | seg :: rest => (c :: seg) :: rest

/-- The segments of a rendered content: `content.split('\n')`. -/
def segments (content : String) : List String :=
  (splitNewline content.data).map String.mk

/-! ## The Scroller -/

/-- The fields of a `Scroller` object (lines 6-18).  The four pre-bound
functions of lines 21-24 are the methods below applied to the object. -/
structure Scroller where
  lines : List String
  lineOffset : Int
  visibleCount : Int
  startPosition : Int
  endPosition : Int
  expandDistance : Int
  sticky : Bool
  jumpToBottom : Bool
  target : Option Element
  animateRequest : Option Nat
  dirty : Bool

/-- The `options` argument of the constructor: every property may be absent. -/
structure Options where
  lines : Option (List String)
  lineOffset : Option Int
  visibleCount : Option Int
  startPosition : Option Int
  endPosition : Option Int
  expandDistance : Option Int
  sticky : Option Bool

/-- The options object `{}`. -/
def Options.none : Options :=
  { lines := Option.none, lineOffset := Option.none, visibleCount := Option.none,
    startPosition := Option.none, endPosition := Option.none,
    expandDistance := Option.none, sticky := Option.none }

/-- The constructor `new Scroller(targetElement, options)` (lines 5-25). -/
def Scroller.construct (targetElement : Option Element) (options : Options) : Scroller :=
  { lines := orLines options.lines []
    lineOffset := orNumber options.lineOffset 0
    visibleCount := orNumber options.visibleCount 50
    startPosition := orNumber options.startPosition 0
    endPosition := orNumber options.endPosition 0
    expandDistance := orNumber options.expandDistance 200
    sticky := orBool options.sticky true
    jumpToBottom := orBool options.sticky true
    target := targetElement
    animateRequest := Option.none
    dirty := true }

/-- The method `lineCount` (lines 60-62). -/
def Scroller.lineCount (s : Scroller) : Int :=
  s.lines.length + s.lineOffset

/-- The method `_generateContent` (lines 27-39). -/
def Scroller._generateContent (s : Scroller) : String :=
  String.intercalate "\n"
    ((slice s.lines (s.startPosition - s.lineOffset) (s.endPosition - s.lineOffset)).map
      blankToThinSpace)

/-- The method `setLines` (lines 41-58). -/
def Scroller.setLines (s : Scroller) (newLines : List String) (offset : Int) : Scroller :=
  let s1 : Scroller := { s with lines := newLines, lineOffset := offset }
  let s2 : Scroller :=
    if s1.sticky then
      let s3 : Scroller := { s1 with endPosition := s1.lineCount }
      let s4 : Scroller :=
        { s3 with startPosition := max s3.lineOffset (s3.endPosition - s3.visibleCount) }
      if s4.endPosition ≤ s4.visibleCount * 2 then { s4 with jumpToBottom := true } else s4
    else if s1.lineOffset > s1.startPosition then
      let lineDiff : Int := s1.lineOffset - s1.startPosition
      { s1 with
        startPosition := s1.startPosition + lineDiff
        endPosition := s1.endPosition + lineDiff }
    else s1
  { s2 with dirty := true }

/-- The method `reset` (lines 64-71). -/
def Scroller.reset (s : Scroller) : Scroller :=
  let s1 : Scroller := { s with endPosition := max 0 s.lineCount }
  let s2 : Scroller := { s1 with startPosition := max 0 (s1.endPosition - s1.visibleCount) }
  { s2 with lineOffset := 0, jumpToBottom := true, sticky := true, dirty := true }

/-- The method `requestRefresh` (lines 73-77). -/
def Scroller.requestRefresh (s : Scroller) (q : FrameQueue) : Scroller × FrameQueue :=
  match s.target with
  | none => (s, q)
  | some _ => ({ s with animateRequest := some (requestAnimationFrame q).1 },
      (requestAnimationFrame q).2)

/-- The method `_renderVisible` (lines 79-93), also reachable as `refresh`. -/
def Scroller._renderVisible (s : Scroller) : Scroller :=
  let s0 : Scroller := { s with animateRequest := none }
  match s0.target with
  | none => s0
  | some e =>
    if s0.dirty then
      let s1 : Scroller :=
        if s0.sticky then
          let s2 : Scroller := { s0 with endPosition := s0.lineCount }
          { s2 with startPosition := max s2.lineOffset (s2.endPosition - s2.visibleCount) }
        else s0
      let e1 : Element := e.setInnerHTML s1._generateContent
      let s3 : Scroller := { s1 with target := some e1 }
      let s4 : Scroller :=
        if s3.jumpToBottom then
          { s3 with target := some (e1.setScrollTop 4000), jumpToBottom := false }
        else s3
      { s4 with dirty := false }
    else s0

/-- The statement `if(this.dirty && !this.animateRequest) this.animateRequest =
requestAnimationFrame(this.refresh)` that ends `_expandTop` (lines 111-113)
and `_onScroll` (lines 169-171). -/
def Scroller.scheduleIfDirty (s : Scroller) (q : FrameQueue) : Scroller × FrameQueue :=
  if s.dirty && !truthy s.animateRequest then
    ({ s with animateRequest := some (requestAnimationFrame q).1 }, (requestAnimationFrame q).2)
  else (s, q)

/-- The method `_expandTop` (lines 95-115), also reachable as `expandTop`. -/
def Scroller._expandTop (s : Scroller) (q : FrameQueue) : Scroller × FrameQueue :=
  let s1 : Scroller :=
    { s with startPosition := max s.lineOffset (s.startPosition - s.visibleCount) }
  match s1.target with
  | none => (s1, q)
  | some e =>
    let s2 : Scroller := { s1 with sticky := false }
    let scrollHeight : Int := e.scrollHeight
    let scrollTop : Int := e.scrollTop
    let e1 : Element := e.setInnerHTML s2._generateContent
    let newScrollHeight : Int := e1.scrollHeight
    let e2 : Element := e1.setScrollTop (scrollTop + newScrollHeight - scrollHeight)
    let oldEndPos : Int := s2.endPosition
    let s3 : Scroller :=
      { s2 with
        target := some e2
        endPosition := min s2.endPosition (s2.startPosition + s2.visibleCount * 2) }
    let s4 : Scroller := { s3 with dirty := decide (oldEndPos ≠ s3.endPosition) }
    s4.scheduleIfDirty q

/-- The method `_expandBottom` (lines 117-135), also reachable as
`expandBottom`. -/
def Scroller._expandBottom (s : Scroller) : Scroller :=
  let s1 : Scroller :=
    { s with endPosition := min s.lineCount (s.endPosition + s.visibleCount) }
  match s1.target with
  | none => s1
  | some e =>
    let e1 : Element := e.setInnerHTML s1._generateContent
    let scrollHeight : Int := e1.scrollHeight
    let scrollTop : Int := e1.scrollTop
    let s2 : Scroller :=
      { s1 with
        target := some e1
        startPosition :=
          max s1.lineOffset
            (min (s1.lineCount - s1.visibleCount * 2) (s1.endPosition - s1.visibleCount * 2)) }
    let e2 : Element := e1.setInnerHTML s2._generateContent
    let newScrollHeight : Int := e2.scrollHeight
    let e3 : Element := e2.setScrollTop (scrollTop - (scrollHeight - newScrollHeight))
    { s2 with target := some e3, dirty := false }

/-- The failure of a method call: reading a property of `null`. -/
inductive JsError where
  | typeError
  deriving DecidableEq, Repr

/-- The three measurements `_onScroll` takes of the viewport (lines 142-147). -/
structure Geometry where
  nearTop : Bool
  nearBottom : Bool
  nearSticky : Bool

/-- Lines 142-147 of `_onScroll`. -/
def Scroller.measure (s : Scroller) (e : Element) : Geometry :=
  let height : Int := e.offsetHeight
  let scrollHeight : Int := e.scrollHeight
  let scrollTop : Int := e.scrollTop
  { nearTop := decide (scrollTop < s.expandDistance)
    nearBottom := decide (scrollTop + height > scrollHeight - s.expandDistance)
    nearSticky := decide (scrollTop + height > scrollHeight - 10) }

/-- The method `_onScroll` (lines 137-172), also reachable as `scroll`. -/
def Scroller._onScroll (s : Scroller) (q : FrameQueue) :
    Except JsError (Scroller × FrameQueue) :=
  if s.jumpToBottom then Except.ok (s, q)
  else
    match s.target with
    | none => Except.error JsError.typeError
    | some e =>
      let g : Geometry := s.measure e
      let r : Scroller × FrameQueue :=
        if s.sticky then
          if !g.nearSticky then ({ s with sticky := false }, q) else (s, q)
        else if g.nearTop && decide (s.startPosition > s.lineOffset) then s._expandTop q
        else if g.nearBottom then
          if s.endPosition < s.lineCount - 2 then (s._expandBottom, q)
          else if g.nearSticky then
            ({ s with jumpToBottom := true, sticky := true, dirty := true }, q)
          else (s, q)
        else (s, q)
      Except.ok (r.1.scheduleIfDirty r.2)

/-! ## Sequences of calls -/

/-- A Scroller together with the scheduler of the page it lives on. -/
structure Page where
  scroller : Scroller
  frames : FrameQueue

/-- The page right after `new Scroller(targetElement, options)`. -/
def Page.initial (targetElement : Option Element) (options : Options) : Page :=
  { scroller := Scroller.construct targetElement options, frames := FrameQueue.empty }

/-- What can happen to a Scroller: a call of one of its methods, the firing of
the oldest scheduled frame (which calls `refresh`), or the rendering surface
changing its own geometry (the viewer scrolls, the layout changes). -/
inductive Op where
  | setLines (newLines : List String) (offset : Int)
  | reset
  | requestRefresh
  | refresh
  | frame
  | surface (scrollTop offsetHeight : Int) (scrollHeightOf : String → Int)
  | scroll
  | expandTop
  | expandBottom

/-- One operation on a page.  There is no next page when `_onScroll` throws,
and when a frame is to fire while none is scheduled. -/
def Page.step (p : Page) (op : Op) : Option Page :=
  match op with
  | Op.setLines newLines offset =>
    some { p with scroller := p.scroller.setLines newLines offset }
  | Op.reset => some { p with scroller := p.scroller.reset }
  | Op.requestRefresh =>
    some { scroller := (p.scroller.requestRefresh p.frames).1,
           frames := (p.scroller.requestRefresh p.frames).2 }
  | Op.refresh => some { p with scroller := p.scroller._renderVisible }
  | Op.frame =>
    match p.frames.pending with
    | [] => none
    | _ :: rest =>
      some { scroller := p.scroller._renderVisible, frames := { p.frames with pending := rest } }
  | Op.surface scrollTop offsetHeight scrollHeightOf =>
    some { p with scroller := { p.scroller with target := p.scroller.target.map fun e =>
      { e with scrollTop := scrollTop, offsetHeight := offsetHeight,
               scrollHeightOf := scrollHeightOf } } }
  | Op.scroll =>
    match p.scroller._onScroll p.frames with
    | Except.ok r => some { scroller := r.1, frames := r.2 }
    | Except.error _ => none
  | Op.expandTop =>
    some { scroller := (p.scroller._expandTop p.frames).1,
           frames := (p.scroller._expandTop p.frames).2 }
  | Op.expandBottom => some { p with scroller := p.scroller._expandBottom }

/-- A sequence of operations, from left to right. -/
def Page.run (p : Page) : List Op → Option Page
  | [] => some p
  | op :: ops => (p.step op).bind fun p1 => p1.run ops

/-! ## Properties of states -/

/-- The window invariant of the data model: the window lies inside the
retained buffer. -/
def WindowInv (s : Scroller) : Prop :=
  s.lineOffset ≤ s.startPosition ∧ s.startPosition ≤ s.endPosition ∧
    s.endPosition ≤ s.lineOffset + s.lines.length

instance (s : Scroller) : Decidable (WindowInv s) :=
  inferInstanceAs (Decidable (s.lineOffset ≤ s.startPosition ∧ s.startPosition ≤ s.endPosition ∧
    s.endPosition ≤ s.lineOffset + s.lines.length))

/-- The window invariant together with a page size that is not negative. -/
def Scroller.Sound (s : Scroller) : Prop :=
  WindowInv s ∧ 0 ≤ s.visibleCount

/-- The calls that keep the window inside the buffer: `setLines` in sticky
mode, `setLines` outside sticky mode when the new buffer still reaches the end
of the window after its shift, `reset` while `lineOffset` is 0, and every
other operation. -/
def Op.wellFormed (s : Scroller) (op : Op) : Prop :=
  match op with
  | Op.setLines newLines offset =>
    s.sticky = true ∨
      max s.endPosition (s.endPosition + (offset - s.startPosition)) ≤ offset + newLines.length
  | Op.reset => s.lineOffset = 0
  | _ => True

instance (s : Scroller) (op : Op) : Decidable (op.wellFormed s) :=
  match op with
  | Op.setLines newLines offset =>
    inferInstanceAs (Decidable (s.sticky = true ∨
      max s.endPosition (s.endPosition + (offset - s.startPosition)) ≤ offset + newLines.length))
  | Op.reset => inferInstanceAs (Decidable (s.lineOffset = 0))
  | Op.requestRefresh => isTrue trivial
  | Op.refresh => isTrue trivial
  | Op.frame => isTrue trivial
  | Op.surface _ _ _ => isTrue trivial
  | Op.scroll => isTrue trivial
  | Op.expandTop => isTrue trivial
  | Op.expandBottom => isTrue trivial

/-- Every operation of the sequence is well formed in the state it is applied
to. -/
def wellFormedFrom : Page → List Op → Prop
  | _, [] => True
  | p, op :: ops =>
    op.wellFormed p.scroller ∧
      match p.step op with
      | some p1 => wellFormedFrom p1 ops
      | none => True

/-! ## The decision table of the scroll classifier, as specified -/

/-- The actions of the decision table. -/
inductive ScrollAction where
  | exitSticky
  | expandOlder
  | expandNewer
  | reenterSticky
  | nothing
  deriving DecidableEq, Repr

/-- The decision table as the specification words it: three measurements of
the viewport, then the first row whose condition holds. -/
def decisionTable (s : Scroller) (offset extent clientHeight : Int) : ScrollAction :=
  let nearTop : Prop := offset < s.expandDistance
  let nearBottom : Prop := offset + clientHeight > extent - s.expandDistance
  let nearSticky : Prop := offset + clientHeight > extent - 10
  if s.sticky = true ∧ ¬ nearSticky then ScrollAction.exitSticky
  else if s.sticky = false ∧ nearTop ∧ s.startPosition > s.lineOffset then
    ScrollAction.expandOlder
  else if s.sticky = false ∧ nearBottom ∧ s.endPosition < s.lineCount - 2 then
    ScrollAction.expandNewer
  else if s.sticky = false ∧ nearBottom ∧ nearSticky ∧ s.endPosition ≥ s.lineCount - 2 then
    ScrollAction.reenterSticky
  else ScrollAction.nothing

/-- What each action of the decision table does. -/
def ScrollAction.perform (a : ScrollAction) (s : Scroller) (q : FrameQueue) :
    Scroller × FrameQueue :=
  match a with
  | ScrollAction.exitSticky => ({ s with sticky := false }, q)
  | ScrollAction.expandOlder => s._expandTop q
  | ScrollAction.expandNewer => (s._expandBottom, q)
  | ScrollAction.reenterSticky =>
    ({ s with sticky := true, jumpToBottom := true, dirty := true }, q)
  | ScrollAction.nothing => (s, q)

/-! ## Concrete states and traces -/

/-- A Scroller built with `new Scroller(null, {})`. -/
def freshScroller : Scroller :=
  Scroller.construct none Options.none

/-- A viewport 20 pixels high whose layout gives every line 20 pixels. -/
def smallViewport : Element :=
  { innerHTML := "", scrollTop := 0, offsetHeight := 20,
    scrollHeightOf := fun c => 20 * ((segments c).length : Int), contentWrites := 0 }

/-- A Scroller with a viewport, after its first three lines arrived. -/
def attachedScroller : Scroller :=
  (Scroller.construct (some smallViewport) Options.none).setLines ["a", "", "b"] 0

/-- The state of the trim example of the specification: window 10 to 60 over
a buffer that starts at line 0, not in sticky mode. -/
def trimState : Scroller :=
  { lines := List.replicate 80 "line", lineOffset := 0, visibleCount := 50, startPosition := 10,
    endPosition := 60, expandDistance := 200, sticky := false, jumpToBottom := false,
    target := none, animateRequest := none, dirty := false }

/-- A Scroller whose buffer holds three lines after 100 lines were trimmed. -/
def trimmedBuffer : Scroller :=
  freshScroller.setLines ["a", "b", "c"] 100

/-- A Scroller without a viewport: page size 2 over ten lines. -/
def smallDetached : Scroller :=
  Scroller.construct none
    { Options.none with
      visibleCount := some 2
      lines := some ["a", "b", "c", "d", "e", "f", "g", "h", "i", "j"] }

/-- A Scroller whose viewer has left the tail: window 4 to 6 of eight lines,
viewport scrolled to its top. -/
def scrolledAway : Scroller :=
  { lines := ["a", "b", "c", "d", "e", "f", "g", "h"], lineOffset := 0, visibleCount := 2,
    startPosition := 4, endPosition := 6, expandDistance := 200, sticky := false,
    jumpToBottom := false, target := some smallViewport, animateRequest := none, dirty := false }

/-- The options object with a page size of 2 and nothing else. -/
def smallOptions : Options :=
  { Options.none with visibleCount := some 2 }

/-- An options object whose initial window starts after it ends. -/
def misplacedOptions : Options :=
  { Options.none with startPosition := some 5 }

/-- An options object with a negative page size. -/
def negativePageOptions : Options :=
  { Options.none with visibleCount := some (-1) }

/-- The first lines arrive, then `reset` is called on a trimmed buffer. -/
def resetTrace : List Op :=
  [Op.setLines ["a", "b", "c"] 100, Op.reset]

/-- Four lines arrive and are drawn, the viewer scrolls to the top and so
leaves sticky mode, then the three oldest lines are trimmed. -/
def trimTrace : List Op :=
  [Op.setLines ["a", "b", "c", "d"] 0, Op.refresh,
   Op.surface 0 20 (fun c => 20 * ((segments c).length : Int)), Op.scroll,
   Op.setLines ["d"] 3]

/-- Four lines arrive, `reset` is called on the untrimmed buffer, the lines
are drawn, the viewer scrolls to the top, the window is expanded both ways,
and one line is trimmed while a new one arrives. -/
def steadyTrace : List Op :=
  [Op.setLines ["a", "b", "c", "d"] 0, Op.reset, Op.requestRefresh, Op.frame,
   Op.surface 0 20 (fun c => 20 * ((segments c).length : Int)), Op.scroll,
   Op.expandTop, Op.expandBottom, Op.setLines ["b", "c", "d", "e"] 1]

/-- A Scroller whose window 4 to 8 is wider than a page of 2 lines allows
once it has grown at its start; the viewer is at the top of the viewport. -/
def wideWindow : Scroller :=
  { scrolledAway with endPosition := 8 }

/-- A Scroller without a viewport after its ten lines arrived: page size 2,
window 8 to 10. -/
def detachedTail : Scroller :=
  smallDetached.setLines ["a", "b", "c", "d", "e", "f", "g", "h", "i", "j"] 0

/-- A state without a viewport in which no jump is pending. -/
def detachedIdle : Scroller :=
  { scrolledAway with target := none }

/-- The options object `{sticky: false}`. -/
def unstickyOptions : Options :=
  { Options.none with sticky := some false }

/-- The options object `{visibleCount: 0, expandDistance: 0}`. -/
def zeroOptions : Options :=
  { Options.none with visibleCount := some 0, expandDistance := some 0 }

/-- Eight lines arrive, a redraw is requested, `refresh` is called directly
before the frame fires, and the window is expanded once toward older
content. -/
def pileUpTrace : List Op :=
  [Op.setLines ["a", "b", "c", "d", "e", "f", "g", "h"] 0, Op.requestRefresh, Op.refresh,
   Op.expandTop]

/-- Two calls of `requestRefresh` with no frame in between. -/
def doubleRefreshTrace : List Op :=
  [Op.requestRefresh, Op.requestRefresh]

/-- A viewport 400 pixels high whose layout gives every line 20 pixels. -/
def tallViewport : Element :=
  { innerHTML := "", scrollTop := 0, offsetHeight := 400,
    scrollHeightOf := fun c => 20 * ((segments c).length : Int), contentWrites := 0 }

/-- The options object `{visibleCount: 300}`. -/
def tallOptions : Options :=
  { Options.none with visibleCount := some 300 }

/-- A Scroller with a page of 300 lines, after its first 300 lines arrived. -/
def tallScroller : Scroller :=
  (Scroller.construct (some tallViewport) tallOptions).setLines (List.replicate 300 "line") 0

/-! ## The viewport as the viewer sees it -/

/-- Modelled from the spec: the rendering surface is not part of the source.
Its maximum scroll offset is its scroll extent minus its client height, and
not below 0. -/
def Element.maxScrollTop (e : Element) : Int :=
  max 0 (e.scrollHeight - e.offsetHeight)

/-- Modelled from the spec: the rendering surface is not part of the source.
The scroll offset the surface shows for the value assigned to it: the value
clamped between 0 and the maximum scroll offset. -/
def Element.shownScrollTop (e : Element) : Int :=
  max 0 (min e.scrollTop e.maxScrollTop)

/-! ## Scheduled redraws -/

/-- The scheduler holds at most one frame, and when it holds one the Scroller
has its handle in `animateRequest`. -/
def Page.Coalesced (p : Page) : Prop :=
  p.frames.pending.length ≤ 1 ∧ (p.frames.pending ≠ [] → truthy p.scroller.animateRequest = true)

/-- The operations that schedule a redraw only behind the test of
`animateRequest`, or not at all: every operation but `requestRefresh` and a
call of `refresh` that no frame made. -/
def Op.guarded (op : Op) : Prop :=
  match op with
  | Op.requestRefresh => False
  | Op.refresh => False
  | _ => True

/-! ## Lemmas on the helpers -/

theorem scheduleIfDirty_target (s : Scroller) (q : FrameQueue) :
    (s.scheduleIfDirty q).1.target = s.target := by
  unfold Scroller.scheduleIfDirty
  split <;> rfl

theorem scheduleIfDirty_window (s : Scroller) (q : FrameQueue) :
    (s.scheduleIfDirty q).1.lines = s.lines ∧
    (s.scheduleIfDirty q).1.lineOffset = s.lineOffset ∧
    (s.scheduleIfDirty q).1.visibleCount = s.visibleCount ∧
    (s.scheduleIfDirty q).1.startPosition = s.startPosition ∧
    (s.scheduleIfDirty q).1.endPosition = s.endPosition := by
  unfold Scroller.scheduleIfDirty
  split <;> simp

theorem scheduleIfDirty_flags (s : Scroller) (q : FrameQueue) :
    (s.scheduleIfDirty q).1.sticky = s.sticky ∧
    (s.scheduleIfDirty q).1.jumpToBottom = s.jumpToBottom ∧
    (s.scheduleIfDirty q).1.dirty = s.dirty := by
  unfold Scroller.scheduleIfDirty
  split <;> simp

theorem baseSlice_inside {α : Type} (xs : List α) (a b : Int)
    (h0 : 0 ≤ a) (hab : a ≤ b) (hb : b ≤ xs.length) :
    baseSlice xs a b = (xs.drop a.toNat).take (b - a).toNat := by
  have h1 : ¬ a < 0 := by omega
  have h2 : ¬ b < 0 := by omega
  simp only [baseSlice, h1, h2, if_false]
  rw [min_eq_left hb, min_eq_left (le_trans hab hb)]

theorem slice_inside {α : Type} (xs : List α) (a b : Int)
    (h0 : 0 ≤ a) (hab : a ≤ b) (hb : b ≤ xs.length) :
    slice xs a b = (xs.drop a.toNat).take (b - a).toNat := by
  have h1 : ¬ a < 0 := by omega
  have h2 : ¬ b < 0 := by omega
  have hview : min (xs.length : Int) (a + max (b - a) 0) = b := by
    rw [max_eq_left (by omega)]
    omega
  simp only [slice, h1, h2, if_false, hview]
  split
  · exact baseSlice_inside xs a b h0 hab hb
  · rfl

theorem blankToThinSpace_ne_empty (line : String) : blankToThinSpace line ≠ "" := by
  unfold blankToThinSpace
  split
  · decide
  · intro h
    simp_all

theorem blankToThinSpace_no_newline (line : String) (h : '\n' ∉ line.data) :
    '\n' ∉ (blankToThinSpace line).data := by
  unfold blankToThinSpace
  split
  · decide
  · exact h

/-! ## Joining and splitting at newlines -/

theorem splitNewline_of_not_mem (a : List Char) (ha : '\n' ∉ a) : splitNewline a = [a] := by
  induction a with
  | nil => rfl
  | cons c cs ih =>
    have hc : c ≠ '\n' := fun h => ha (by simp [h])
    have hcs : '\n' ∉ cs := fun h => ha (by simp [h])
    simp [splitNewline, hc, ih hcs]

theorem splitNewline_append (a r : List Char) (ha : '\n' ∉ a) :
    splitNewline (a ++ '\n' :: r) = a :: splitNewline r := by
  induction a with
  | nil => simp [splitNewline]
  | cons c cs ih =>
    have hc : c ≠ '\n' := fun h => ha (by simp [h])
    have hcs : '\n' ∉ cs := fun h => ha (by simp [h])
    simp [splitNewline, hc, ih hcs]

theorem intercalate_go_data (acc sep : String) (l : List String) :
    (String.intercalate.go acc sep l).data =
      acc.data ++ (l.map fun a => sep.data ++ a.data).flatten := by
  induction l generalizing acc with
  | nil => simp [String.intercalate.go]
  | cons a l ih =>
    simp [String.intercalate.go, ih, String.data_append, List.append_assoc]

theorem splitNewline_joined (a : String) (l : List String)
    (ha : '\n' ∉ a.data) (hl : ∀ x ∈ l, '\n' ∉ x.data) :
    splitNewline (a.data ++ (l.map fun x => "\n".data ++ x.data).flatten) =
      a.data :: l.map String.data := by
  induction l generalizing a with
  | nil => simp [splitNewline_of_not_mem a.data ha]
  | cons b l ih =>
    have hb : '\n' ∉ b.data := hl b (by simp)
    have hl2 : ∀ x ∈ l, '\n' ∉ x.data := fun x hx => hl x (by simp [hx])
    have hnl : "\n".data = ['\n'] := rfl
    simp only [List.map_cons, List.flatten_cons, hnl, List.singleton_append, List.cons_append,
      List.nil_append]
    rw [splitNewline_append a.data _ ha]
    have hrest := ih b hb hl2
    rw [hnl] at hrest
    simp only [List.singleton_append, List.cons_append, List.nil_append] at hrest
    rw [hrest]

theorem segments_intercalate (segs : List String) (hne : segs ≠ [])
    (hnl : ∀ x ∈ segs, '\n' ∉ x.data) :
    segments (String.intercalate "\n" segs) = segs := by
  cases segs with
  | nil => exact absurd rfl hne
  | cons a l =>
    have ha : '\n' ∉ a.data := hnl a (by simp)
    have hl : ∀ x ∈ l, '\n' ∉ x.data := fun x hx => hnl x (by simp [hx])
    unfold segments
    rw [String.intercalate, intercalate_go_data, splitNewline_joined a l ha hl]
    simp [List.map_map, Function.comp_def]

/-! ## Each operation keeps the window inside the buffer -/

theorem sound_of_fields (s t : Scroller) (h : t.Sound)
    (h1 : s.lines = t.lines) (h2 : s.lineOffset = t.lineOffset)
    (h3 : s.visibleCount = t.visibleCount) (h4 : s.startPosition = t.startPosition)
    (h5 : s.endPosition = t.endPosition) : s.Sound := by
  unfold Scroller.Sound WindowInv at *
  rw [h1, h2, h3, h4, h5]
  exact h

theorem setLines_sound (s : Scroller) (newLines : List String) (offset : Int)
    (h : s.Sound) (hw : (Op.setLines newLines offset).wellFormed s) :
    (s.setLines newLines offset).Sound := by
  obtain ⟨⟨h1, h2, h3⟩, h4⟩ := h
  simp only [Op.wellFormed] at hw
  unfold Scroller.Sound WindowInv Scroller.setLines
  cases hs : s.sticky
  · have hw2 : max s.endPosition (s.endPosition + (offset - s.startPosition)) ≤
        offset + newLines.length := by
      rcases hw with hw | hw
      · rw [hs] at hw
        exact absurd hw (by decide)
      · exact hw
    by_cases hgt : offset > s.startPosition
    · simp only [hgt, if_true, Bool.false_eq_true, if_false]
      omega
    · simp only [hgt, if_false, Bool.false_eq_true]
      omega
  · simp only [if_true, Scroller.lineCount]
    split <;> simp only <;> omega

theorem reset_sound (s : Scroller) (h : s.Sound) (hw : Op.reset.wellFormed s) :
    s.reset.Sound := by
  obtain ⟨⟨h1, h2, h3⟩, h4⟩ := h
  simp only [Op.wellFormed] at hw
  unfold Scroller.Sound WindowInv Scroller.reset
  simp only [Scroller.lineCount]
  omega

theorem renderVisible_sound (s : Scroller) (h : s.Sound) : s._renderVisible.Sound := by
  obtain ⟨⟨h1, h2, h3⟩, h4⟩ := h
  unfold Scroller.Sound WindowInv Scroller._renderVisible
  cases ht : s.target with
  | none => exact ⟨⟨h1, h2, h3⟩, h4⟩
  | some e =>
    cases hd : s.dirty <;> cases hs : s.sticky <;> cases hj : s.jumpToBottom <;>
      simp only [if_true, Bool.false_eq_true, if_false, Scroller.lineCount] <;> omega

theorem expandTop_sound (s : Scroller) (q : FrameQueue) (h : s.Sound) :
    (s._expandTop q).1.Sound := by
  obtain ⟨⟨h1, h2, h3⟩, h4⟩ := h
  unfold Scroller._expandTop
  cases ht : s.target with
  | none =>
    simp only [ht]
    unfold Scroller.Sound WindowInv
    simp only
    omega
  | some e =>
    simp only [ht]
    refine sound_of_fields _ _ ?_ (scheduleIfDirty_window _ q).1 (scheduleIfDirty_window _ q).2.1
      (scheduleIfDirty_window _ q).2.2.1 (scheduleIfDirty_window _ q).2.2.2.1
      (scheduleIfDirty_window _ q).2.2.2.2
    unfold Scroller.Sound WindowInv
    simp only
    omega

theorem expandBottom_sound (s : Scroller) (h : s.Sound) : s._expandBottom.Sound := by
  obtain ⟨⟨h1, h2, h3⟩, h4⟩ := h
  unfold Scroller.Sound WindowInv Scroller._expandBottom
  cases ht : s.target with
  | none =>
    simp only [ht, Scroller.lineCount]
    omega
  | some e =>
    simp only [ht, Scroller.lineCount]
    omega

theorem onScroll_sound (s : Scroller) (q : FrameQueue) (r : Scroller × FrameQueue)
    (h : s.Sound) (hr : s._onScroll q = Except.ok r) : r.1.Sound := by
  unfold Scroller._onScroll at hr
  by_cases hj : s.jumpToBottom = true
  · simp only [hj, if_true, Except.ok.injEq] at hr
    rw [← hr]
    exact h
  · simp only [hj, if_false, Bool.false_eq_true] at hr
    cases ht : s.target with
    | none => simp [ht] at hr
    | some e =>
      simp only [ht, Except.ok.injEq] at hr
      rw [← hr]
      refine sound_of_fields _ _ ?_ (scheduleIfDirty_window _ _).1 (scheduleIfDirty_window _ _).2.1
        (scheduleIfDirty_window _ _).2.2.1 (scheduleIfDirty_window _ _).2.2.2.1
        (scheduleIfDirty_window _ _).2.2.2.2
      split
      · split
        · exact sound_of_fields _ s h rfl rfl rfl rfl rfl
        · exact h
      · split
        · exact expandTop_sound s q h
        · split
          · split
            · exact expandBottom_sound s h
            · split
              · exact sound_of_fields _ s h rfl rfl rfl rfl rfl
              · exact h
          · exact h

theorem step_sound (p p1 : Page) (op : Op) (h : p.scroller.Sound)
    (hw : op.wellFormed p.scroller) (hs : p.step op = some p1) : p1.scroller.Sound := by
  cases op with
  | setLines newLines offset =>
    simp only [Page.step, Option.some.injEq] at hs
    rw [← hs]
    exact setLines_sound _ _ _ h hw
  | reset =>
    simp only [Page.step, Option.some.injEq] at hs
    rw [← hs]
    exact reset_sound _ h hw
  | requestRefresh =>
    simp only [Page.step, Option.some.injEq] at hs
    rw [← hs]
    simp only [Scroller.requestRefresh]
    split
    · exact h
    · exact sound_of_fields _ _ h rfl rfl rfl rfl rfl
  | refresh =>
    simp only [Page.step, Option.some.injEq] at hs
    rw [← hs]
    exact renderVisible_sound _ h
  | frame =>
    simp only [Page.step] at hs
    split at hs
    · exact absurd hs (by simp)
    · simp only [Option.some.injEq] at hs
      rw [← hs]
      exact renderVisible_sound _ h
  | surface scrollTop offsetHeight scrollHeightOf =>
    simp only [Page.step, Option.some.injEq] at hs
    rw [← hs]
    exact sound_of_fields _ _ h rfl rfl rfl rfl rfl
  | scroll =>
    simp only [Page.step] at hs
    split at hs
    · rename_i r hr
      simp only [Option.some.injEq] at hs
      rw [← hs]
      exact onScroll_sound _ _ r h hr
    · exact absurd hs (by simp)
  | expandTop =>
    simp only [Page.step, Option.some.injEq] at hs
    rw [← hs]
    exact expandTop_sound _ _ h
  | expandBottom =>
    simp only [Page.step, Option.some.injEq] at hs
    rw [← hs]
    exact expandBottom_sound _ h

theorem run_sound (ops : List Op) (p p1 : Page) (h : p.scroller.Sound)
    (hw : wellFormedFrom p ops) (hr : p.run ops = some p1) : p1.scroller.Sound := by
  induction ops generalizing p with
  | nil =>
    simp only [Page.run, Option.some.injEq] at hr
    rw [← hr]
    exact h
  | cons op ops ih =>
    simp only [Page.run] at hr
    cases hs : p.step op with
    | none => simp [hs] at hr
    | some p2 =>
      simp only [hs, Option.some_bind] at hr
      obtain ⟨hw1, hw2⟩ := hw
      simp only [hs] at hw2
      exact ih p2 (step_sound p p2 op h hw1 hs) hw2 hr

/-! ## The window invariant (C1) -/

/-- Claim C1, as stated, fails.  After `setLines` of three lines at offset 100
and `reset`, the window ends at 103 while the buffer ends at 3.  And after the
viewer left sticky mode with the window at 2 to 4, trimming the three oldest
of four lines moves the window to 3 to 5 while the buffer ends at 4.  The
constructor checks nothing either: an initial window that starts at 5 and ends
at 0 is taken as given, and with a page size of -1 the first line to arrive
puts the start of the window at 2 and its end at 1. -/
theorem windowInv_broken :
    (∃ p : Page, (Page.initial none Options.none).run resetTrace = some p ∧
      p.scroller.endPosition = 103 ∧ p.scroller.lineOffset + p.scroller.lines.length = 3 ∧
      ¬ WindowInv p.scroller) ∧
    (∃ p : Page, (Page.initial (some smallViewport) smallOptions).run trimTrace = some p ∧
      p.scroller.endPosition = 5 ∧ p.scroller.lineOffset + p.scroller.lines.length = 4 ∧
      ¬ WindowInv p.scroller) ∧
    ¬ WindowInv (Page.initial none misplacedOptions).scroller ∧
    (∃ p : Page, (Page.initial none negativePageOptions).run [Op.setLines ["a"] 0] = some p ∧
      p.scroller.startPosition = 2 ∧ p.scroller.endPosition = 1 ∧ ¬ WindowInv p.scroller) := by
  refine ⟨⟨_, rfl, by decide⟩, ⟨_, rfl, by decide⟩, by decide, ⟨_, rfl, by decide⟩⟩

/-- Claim C1, amended.  When the Scroller is constructed with its window inside
its buffer and a page size that is not negative, the window invariant holds in
every state reached by a sequence of operations in which `reset` is called only
while `lineOffset` is 0 and `setLines` outside sticky mode is called only with
a buffer that still reaches the end of the shifted window. -/
theorem windowInv_reachable (targetElement : Option Element) (options : Options)
    (ops : List Op) (p : Page)
    (hinit : WindowInv (Scroller.construct targetElement options))
    (hcount : 0 ≤ (Scroller.construct targetElement options).visibleCount)
    (hw : wellFormedFrom (Page.initial targetElement options) ops)
    (hr : (Page.initial targetElement options).run ops = some p) :
    WindowInv p.scroller :=
  (run_sound ops (Page.initial targetElement options) p ⟨hinit, hcount⟩ hw hr).1

/-- Claim C1, amended, on a trace that passes through every operation. -/
theorem windowInv_reachable_witness :
    ∃ p : Page, (Page.initial (some smallViewport) smallOptions).run steadyTrace = some p ∧
      WindowInv p.scroller :=
  ⟨_, rfl, windowInv_reachable (some smallViewport) smallOptions steadyTrace _
    (by decide) (by decide)
    ⟨by decide, by decide, trivial, trivial, trivial, trivial, trivial, trivial, by decide,
      trivial⟩
    rfl⟩

/-! ## setLines (C2, C3, C4) -/

/-- Claim C2.  In sticky mode `setLines` puts the end of the window at the new
total and the start one page before it, not below the new offset; with a page
of 50 lines, 150 lines at offset 0 give the window 100 to 150. -/
theorem setLines_sticky (s : Scroller) (newLines : List String) (offset : Int)
    (hs : s.sticky = true) :
    (s.setLines newLines offset).endPosition = newLines.length + offset ∧
    (s.setLines newLines offset).startPosition =
      max offset ((s.setLines newLines offset).endPosition - s.visibleCount) ∧
    (s.visibleCount = 50 → newLines.length = 150 → offset = 0 →
      (s.setLines newLines offset).startPosition = 100 ∧
      (s.setLines newLines offset).endPosition = 150) := by
  have hend : (s.setLines newLines offset).endPosition = newLines.length + offset := by
    simp only [Scroller.setLines, Scroller.lineCount, hs, if_true]
    split <;> rfl
  have hstart : (s.setLines newLines offset).startPosition =
      max offset ((newLines.length : Int) + offset - s.visibleCount) := by
    simp only [Scroller.setLines, Scroller.lineCount, hs, if_true]
    split <;> rfl
  refine ⟨hend, ?_, ?_⟩
  · rw [hstart, hend]
  · intro hv hl ho
    rw [hstart, hend, hv, hl, ho]
    constructor <;> simp

/-- Claim C2 on a fresh Scroller that receives 150 lines at offset 0. -/
theorem setLines_sticky_witness :
    freshScroller.sticky = true ∧
    (freshScroller.setLines (List.replicate 150 "line") 0).startPosition = 100 ∧
    (freshScroller.setLines (List.replicate 150 "line") 0).endPosition = 150 :=
  ⟨rfl, (setLines_sticky freshScroller (List.replicate 150 "line") 0 rfl).2.2 rfl
    (List.length_replicate 150 "line") rfl⟩

/-- Claim C3, as stated, fails on its own example.  From the window 10 to 60
over a buffer at offset 0, `setLines(sameLines, 15)` gives 15 to 65, not 25 to
75: the shift is 5, the distance from the old start to the new offset, and
not 15, the distance the offset advanced. -/
theorem trim_example_fails :
    trimState.sticky = false ∧ trimState.lineOffset = 0 ∧
    trimState.startPosition = 10 ∧ trimState.endPosition = 60 ∧
    (trimState.setLines trimState.lines 15).startPosition = 15 ∧
    (trimState.setLines trimState.lines 15).endPosition = 65 ∧
    ¬ ((trimState.setLines trimState.lines 15).startPosition =
          trimState.startPosition + (15 - trimState.lineOffset) ∧
       (trimState.setLines trimState.lines 15).endPosition =
          trimState.endPosition + (15 - trimState.lineOffset)) := by
  decide

/-- Claim C3, amended.  Outside sticky mode, when the new offset is greater
than the current start, `setLines` shifts start and end forward by the new
offset minus the old start: the start lands on the new offset and the size of
the window is kept.  In the example the window 10 to 60 becomes 15 to 65. -/
theorem setLines_trim (s : Scroller) (newLines : List String) (newOffset : Int)
    (hs : s.sticky = false) (hgt : newOffset > s.startPosition) :
    (s.setLines newLines newOffset).startPosition =
      s.startPosition + (newOffset - s.startPosition) ∧
    (s.setLines newLines newOffset).endPosition =
      s.endPosition + (newOffset - s.startPosition) ∧
    (s.setLines newLines newOffset).startPosition = newOffset ∧
    (s.setLines newLines newOffset).endPosition - (s.setLines newLines newOffset).startPosition =
      s.endPosition - s.startPosition ∧
    (s.startPosition = 10 → s.endPosition = 60 → newOffset = 15 →
      (s.setLines newLines newOffset).startPosition = 15 ∧
      (s.setLines newLines newOffset).endPosition = 65) := by
  have h1 : (s.setLines newLines newOffset).startPosition =
      s.startPosition + (newOffset - s.startPosition) := by
    simp [Scroller.setLines, hs, hgt]
  have h2 : (s.setLines newLines newOffset).endPosition =
      s.endPosition + (newOffset - s.startPosition) := by
    simp [Scroller.setLines, hs, hgt]
  refine ⟨h1, h2, by rw [h1]; ring, by rw [h1, h2]; ring, ?_⟩
  intro ha hb hc
  rw [h1, h2, ha, hb, hc]
  constructor <;> norm_num

/-- Claim C3, amended, on the state of the example. -/
theorem setLines_trim_witness :
    trimState.sticky = false ∧ (15 : Int) > trimState.startPosition ∧
    (trimState.setLines trimState.lines 15).startPosition = 15 ∧
    (trimState.setLines trimState.lines 15).endPosition = 65 :=
  ⟨rfl, by decide,
    (setLines_trim trimState trimState.lines 15 rfl (by decide)).2.2.2.2 rfl rfl rfl⟩

/-- Claim C4.  In sticky mode, when the new total is at most two pages,
`setLines` sets `jumpToBottom`, whatever it was before. -/
theorem setLines_early_follow (s : Scroller) (newLines : List String) (offset : Int)
    (hs : s.sticky = true) (hsmall : (newLines.length : Int) + offset ≤ 2 * s.visibleCount) :
    (s.setLines newLines offset).jumpToBottom = true := by
  have h : (newLines.length : Int) + offset ≤ s.visibleCount * 2 := by omega
  simp [Scroller.setLines, Scroller.lineCount, hs, h]

/-- Claim C4 on a sticky Scroller whose `jumpToBottom` had been cleared. -/
theorem setLines_early_follow_witness :
    ({ freshScroller with jumpToBottom := false } : Scroller).jumpToBottom = false ∧
    (({ freshScroller with jumpToBottom := false } : Scroller).setLines
      ["a", "b"] 3).jumpToBottom = true :=
  ⟨rfl, setLines_early_follow _ ["a", "b"] 3 rfl (by decide)⟩

/-! ## reset (C5) -/

/-- Claim C5, as stated, fails.  On a buffer of three lines at offset 100,
`reset` leaves the end of the window at 103, the total before the call, while
the total of the state it leaves behind is 3. -/
theorem reset_stale_total :
    trimmedBuffer.lineOffset = 100 ∧ trimmedBuffer.lines.length = 3 ∧
    trimmedBuffer.reset.endPosition = 103 ∧ trimmedBuffer.reset.lineCount = 3 ∧
    trimmedBuffer.reset.endPosition ≠ max 0 trimmedBuffer.reset.lineCount := by
  decide

/-- Claim C5, amended.  After `reset` the offset is 0, sticky, jumpToBottom
and dirty are set, the end of the window is the total line count of the state
before the call (its `lines.length` plus its `lineOffset`), not below 0, and
the start is one page before the end, not below 0. -/
theorem reset_follow (s : Scroller) :
    s.reset.lineOffset = 0 ∧ s.reset.sticky = true ∧ s.reset.jumpToBottom = true ∧
    s.reset.dirty = true ∧
    s.reset.endPosition = max 0 ((s.lines.length : Int) + s.lineOffset) ∧
    s.reset.endPosition = max 0 s.lineCount ∧
    s.reset.startPosition = max 0 (s.reset.endPosition - s.visibleCount) ∧
    s.reset.lines = s.lines ∧ s.reset.visibleCount = s.visibleCount := by
  simp [Scroller.reset, Scroller.lineCount]

/-! ## The redraw (C6) -/

/-- Claim C6.  With a viewport attached, a second redraw right after the first
changes nothing: the Scroller, and with it the content, the scroll offset and
the number of content writes of the viewport, are those the first redraw left;
so the two redraws write the content at most once. -/
theorem renderVisible_twice (s : Scroller) (e : Element) (ht : s.target = some e) :
    s._renderVisible._renderVisible = s._renderVisible ∧
    ∃ e1 : Element, s._renderVisible.target = some e1 ∧
      s._renderVisible._renderVisible.target = some e1 ∧
      e1.contentWrites ≤ e.contentWrites + 1 := by
  have hfix : s._renderVisible._renderVisible = s._renderVisible := by
    unfold Scroller._renderVisible
    cases hd : s.dirty <;> cases hs : s.sticky <;> cases hj : s.jumpToBottom <;>
      simp [ht, hd, hs, hj]
  refine ⟨hfix, ?_⟩
  rw [hfix]
  unfold Scroller._renderVisible
  cases hd : s.dirty <;> cases hs : s.sticky <;> cases hj : s.jumpToBottom <;>
    simp [ht, hd, hs, hj, Element.setInnerHTML, Element.setScrollTop]

/-- Claim C6 on a Scroller that owes its first redraw. -/
theorem renderVisible_twice_witness :
    attachedScroller.target = some smallViewport ∧
    attachedScroller._renderVisible._renderVisible = attachedScroller._renderVisible ∧
    ∃ e1 : Element, attachedScroller._renderVisible.target = some e1 ∧
      attachedScroller._renderVisible._renderVisible.target = some e1 ∧
      e1.contentWrites ≤ smallViewport.contentWrites + 1 :=
  ⟨rfl, renderVisible_twice attachedScroller smallViewport rfl⟩

/-! ## Materialization (C7) -/

/-- Claim C7.  When the window lies inside the buffer and no line holds a
newline, the content is the join, with one newline between neighbours, of
exactly `endPosition - startPosition` segments; segment `i` is the line at
buffer index `startPosition - lineOffset + i`, or U+2009 alone when that line
is empty; no segment is empty; the content of an empty window is empty, and
splitting the content of any other window at its newlines gives the segments
back. -/
theorem generateContent_segments (s : Scroller)
    (hinv : s.lineOffset ≤ s.startPosition ∧ s.startPosition ≤ s.endPosition ∧
      s.endPosition ≤ s.lineOffset + s.lines.length)
    (hnl : ∀ line ∈ s.lines, '\n' ∉ line.data) :
    ∃ segs : List String,
      s._generateContent = String.intercalate "\n" segs ∧
      (segs.length : Int) = s.endPosition - s.startPosition ∧
      (∀ i : Nat, i < segs.length →
        ∃ line : String,
          s.lines[(s.startPosition - s.lineOffset).toNat + i]? = some line ∧
          segs[i]? =
            some (if line = "" then String.singleton (Char.ofNat 0x2009) else line)) ∧
      (∀ seg ∈ segs, seg ≠ "" ∧ '\n' ∉ seg.data) ∧
      (s.startPosition = s.endPosition → s._generateContent = "") ∧
      (s.startPosition < s.endPosition → segments s._generateContent = segs) := by
  obtain ⟨h1, h2, h3⟩ := hinv
  have hslice := slice_inside s.lines (s.startPosition - s.lineOffset)
    (s.endPosition - s.lineOffset) (by omega) (by omega) (by omega)
  have hsub : s.endPosition - s.lineOffset - (s.startPosition - s.lineOffset) =
      s.endPosition - s.startPosition := by ring
  rw [hsub] at hslice
  have hlen : ((slice s.lines (s.startPosition - s.lineOffset)
      (s.endPosition - s.lineOffset)).length : Int) = s.endPosition - s.startPosition := by
    rw [hslice, List.length_take, List.length_drop]
    omega
  have hmem : ∀ line ∈ slice s.lines (s.startPosition - s.lineOffset)
      (s.endPosition - s.lineOffset), line ∈ s.lines := by
    intro line hl
    rw [hslice] at hl
    exact List.mem_of_mem_drop (List.mem_of_mem_take hl)
  have hgood : ∀ seg ∈ (slice s.lines (s.startPosition - s.lineOffset)
      (s.endPosition - s.lineOffset)).map blankToThinSpace, seg ≠ "" ∧ '\n' ∉ seg.data := by
    intro seg hseg
    obtain ⟨line, hline, rfl⟩ := List.mem_map.mp hseg
    exact ⟨blankToThinSpace_ne_empty line,
      blankToThinSpace_no_newline line (hnl line (hmem line hline))⟩
  refine ⟨(slice s.lines (s.startPosition - s.lineOffset)
      (s.endPosition - s.lineOffset)).map blankToThinSpace, rfl, ?_, ?_, hgood, ?_, ?_⟩
  · rw [List.length_map]
    exact hlen
  · intro i hi
    rw [List.length_map] at hi
    have hi2 : i < (slice s.lines (s.startPosition - s.lineOffset)
      (s.endPosition - s.lineOffset)).length := hi
    refine ⟨(slice s.lines (s.startPosition - s.lineOffset)
      (s.endPosition - s.lineOffset))[i], ?_, ?_⟩
    · have hget : (slice s.lines (s.startPosition - s.lineOffset)
          (s.endPosition - s.lineOffset))[i]? =
          s.lines[(s.startPosition - s.lineOffset).toNat + i]? := by
        rw [hslice, List.getElem?_take, List.getElem?_drop]
        have hlt : i < (s.endPosition - s.startPosition).toNat := by omega
        simp [hlt]
      rw [← hget, List.getElem?_eq_getElem hi2]
    · rw [List.getElem?_map, List.getElem?_eq_getElem hi2]
      simp only [Option.map_some', blankToThinSpace]
      congr 1
      by_cases hline : (slice s.lines (s.startPosition - s.lineOffset)
          (s.endPosition - s.lineOffset))[i] = ""
      · rw [hline]
        decide
      · have hpos : ¬ ((slice s.lines (s.startPosition - s.lineOffset)
          (s.endPosition - s.lineOffset))[i]).length = 0 := by
          intro h0
          apply hline
          exact String.ext (List.length_eq_zero.mp h0)
        simp [hpos, hline]
  · intro heq
    have h0 : (slice s.lines (s.startPosition - s.lineOffset)
        (s.endPosition - s.lineOffset)).length = 0 := by omega
    unfold Scroller._generateContent
    rw [List.length_eq_zero.mp h0]
    rfl
  · intro hlt
    apply segments_intercalate _ _ (fun x hx => (hgood x hx).2)
    intro hnil
    have h0 : (slice s.lines (s.startPosition - s.lineOffset)
        (s.endPosition - s.lineOffset)).length = 0 := by
      have hlen0 := congrArg List.length hnil
      simpa using hlen0
    omega

/-- Claim C7 on a window of three lines whose middle line is empty. -/
theorem generateContent_segments_witness :
    attachedScroller._generateContent = "a\n\u2009\nb" ∧
    ∃ segs : List String,
      attachedScroller._generateContent = String.intercalate "\n" segs ∧
      (segs.length : Int) = attachedScroller.endPosition - attachedScroller.startPosition ∧
      (∀ i : Nat, i < segs.length →
        ∃ line : String,
          attachedScroller.lines[
            (attachedScroller.startPosition - attachedScroller.lineOffset).toNat + i]? =
              some line ∧
          segs[i]? =
            some (if line = "" then String.singleton (Char.ofNat 0x2009) else line)) ∧
      (∀ seg ∈ segs, seg ≠ "" ∧ '\n' ∉ seg.data) ∧
      (attachedScroller.startPosition = attachedScroller.endPosition →
        attachedScroller._generateContent = "") ∧
      (attachedScroller.startPosition < attachedScroller.endPosition →
        segments attachedScroller._generateContent = segs) :=
  ⟨by decide, generateContent_segments attachedScroller (by decide) (by decide)⟩

/-! ## Expansion toward older content (C8) -/

theorem expandTop_target (s : Scroller) (q : FrameQueue) (e : Element)
    (ht : s.target = some e) :
    (s._expandTop q).1.target =
      some ((e.setInnerHTML
        ({ s with startPosition := max s.lineOffset (s.startPosition - s.visibleCount),
                  sticky := false } : Scroller)._generateContent).setScrollTop
        (e.scrollTop +
          (e.setInnerHTML
            ({ s with startPosition := max s.lineOffset (s.startPosition - s.visibleCount),
                      sticky := false } : Scroller)._generateContent).scrollHeight -
          e.scrollHeight)) := by
  simp only [Scroller._expandTop, ht, scheduleIfDirty_target]

/-- Claim C8.  With a viewport attached, `_expandTop` leaves the viewport with
the content of the window grown at its start, and with the scroll offset it
had before plus the scroll extent of the new content minus the scroll extent
of the old one: the offset moved by exactly what the extent grew. -/
theorem expandTop_anchoring (s : Scroller) (q : FrameQueue) (e : Element)
    (ht : s.target = some e) :
    ∃ e1 : Element, (s._expandTop q).1.target = some e1 ∧
      e1.innerHTML =
        ({ s with startPosition := max s.lineOffset (s.startPosition - s.visibleCount),
                  sticky := false } : Scroller)._generateContent ∧
      e1.scrollTop = e.scrollTop + (e1.scrollHeight - e.scrollHeight) ∧
      e1.scrollTop - e.scrollTop = e1.scrollHeight - e.scrollHeight := by
  refine ⟨_, expandTop_target s q e ht, rfl, ?_, ?_⟩
  · simp only [Element.setScrollTop, Element.setInnerHTML, Element.scrollHeight]
    ring
  · simp only [Element.setScrollTop, Element.setInnerHTML, Element.scrollHeight]
    ring

/-- Claim C8 on a viewer that scrolled to the top of the window 4 to 6: two
older lines come in, the extent grows from 20 to 80 pixels and the offset
from 0 to 60. -/
theorem expandTop_anchoring_witness :
    scrolledAway.target = some smallViewport ∧
    ∃ e1 : Element, (scrolledAway._expandTop FrameQueue.empty).1.target = some e1 ∧
      e1.innerHTML =
        ({ scrolledAway with
            startPosition :=
              max scrolledAway.lineOffset (scrolledAway.startPosition - scrolledAway.visibleCount),
            sticky := false } : Scroller)._generateContent ∧
      e1.scrollTop = smallViewport.scrollTop + (e1.scrollHeight - smallViewport.scrollHeight) ∧
      e1.scrollTop - smallViewport.scrollTop = e1.scrollHeight - smallViewport.scrollHeight :=
  ⟨rfl, expandTop_anchoring scrolledAway FrameQueue.empty smallViewport rfl⟩

/-! ## Expansion toward newer content (C9) -/

theorem expandBottom_target (s : Scroller) (e : Element) (ht : s.target = some e) :
    ∃ e1 : Element, s._expandBottom.target = some e1 := by
  simp [Scroller._expandBottom, ht]

theorem expandBottom_cap (s : Scroller) (e : Element) (ht : s.target = some e) :
    s._expandBottom.endPosition - s._expandBottom.startPosition ≤ 2 * s.visibleCount ∧
    s._expandBottom.visibleCount = s.visibleCount := by
  simp only [Scroller._expandBottom, ht, Scroller.lineCount]
  refine ⟨?_, trivial⟩
  omega

theorem expandBottom_iterate_fields (n : Nat) (s : Scroller) (e : Element)
    (ht : s.target = some e) :
    (∃ e1 : Element, (Scroller._expandBottom^[n] s).target = some e1) ∧
    (Scroller._expandBottom^[n] s).visibleCount = s.visibleCount := by
  induction n generalizing s e with
  | zero => exact ⟨⟨e, ht⟩, rfl⟩
  | succ k ih =>
    obtain ⟨e1, h1⟩ := expandBottom_target s e ht
    rw [Function.iterate_succ_apply]
    obtain ⟨h2, h3⟩ := ih s._expandBottom e1 h1
    exact ⟨h2, by rw [h3, (expandBottom_cap s e ht).2]⟩

/-- Claim C9, as stated, fails.  Without a viewport `_expandBottom` moves the
end of the window and never the start: on a Scroller constructed without a
viewport, with a page of 2 lines over ten lines, three calls give the window 0
to 6, wider than two pages. -/
theorem expandBottom_detached_grows :
    smallDetached.target.isNone = true ∧ smallDetached.visibleCount = 2 ∧
    (Scroller._expandBottom^[3] smallDetached).endPosition = 6 ∧
    (Scroller._expandBottom^[3] smallDetached).startPosition = 0 ∧
    ¬ ((Scroller._expandBottom^[3] smallDetached).endPosition -
        (Scroller._expandBottom^[3] smallDetached).startPosition
          ≤ 2 * (Scroller._expandBottom^[3] smallDetached).visibleCount) := by
  decide

/-- Claim C9, amended.  With a viewport attached, after one or more calls of
`_expandBottom` in a row the window is at most two pages wide. -/
theorem expandBottom_window_cap (s : Scroller) (e : Element) (n : Nat)
    (ht : s.target = some e) :
    (Scroller._expandBottom^[n + 1] s).endPosition -
      (Scroller._expandBottom^[n + 1] s).startPosition ≤
        2 * (Scroller._expandBottom^[n + 1] s).visibleCount ∧
    (Scroller._expandBottom^[n + 1] s).visibleCount = s.visibleCount := by
  obtain ⟨⟨e1, h1⟩, h2⟩ := expandBottom_iterate_fields n s e ht
  have h := expandBottom_cap (Scroller._expandBottom^[n] s) e1 h1
  rw [Function.iterate_succ_apply']
  rw [h.2]
  exact ⟨h.1, h2⟩

/-- Claim C9, amended, on three calls from a window 4 to 6 of eight lines with
a page of 2 lines. -/
theorem expandBottom_window_cap_witness :
    scrolledAway.target = some smallViewport ∧
    (Scroller._expandBottom^[2 + 1] scrolledAway).endPosition -
      (Scroller._expandBottom^[2 + 1] scrolledAway).startPosition ≤
        2 * (Scroller._expandBottom^[2 + 1] scrolledAway).visibleCount ∧
    (Scroller._expandBottom^[2 + 1] scrolledAway).visibleCount = scrolledAway.visibleCount :=
  ⟨rfl, expandBottom_window_cap scrolledAway smallViewport 2 rfl⟩

/-! ## The scroll classifier (C10) -/

/-- Claim C10.  When no jump is pending and a viewport is attached, `_onScroll`
does what the first matching row of the decision table says, on the scroll
offset, scroll extent and height read from the viewport, and then schedules a
redraw if one is owed and none is scheduled; when no row matches, start, end,
sticky, jumpToBottom and dirty are what they were. -/
theorem onScroll_decisionTable (s : Scroller) (q : FrameQueue) (e : Element)
    (hj : s.jumpToBottom = false) (ht : s.target = some e) :
    s._onScroll q =
      Except.ok
        (((decisionTable s e.scrollTop e.scrollHeight e.offsetHeight).perform s q).1.scheduleIfDirty
          ((decisionTable s e.scrollTop e.scrollHeight e.offsetHeight).perform s q).2) ∧
    (decisionTable s e.scrollTop e.scrollHeight e.offsetHeight = ScrollAction.nothing →
      ∃ r : Scroller × FrameQueue, s._onScroll q = Except.ok r ∧
        r.1.startPosition = s.startPosition ∧ r.1.endPosition = s.endPosition ∧
        r.1.sticky = s.sticky ∧ r.1.jumpToBottom = s.jumpToBottom ∧ r.1.dirty = s.dirty) := by
  have main : s._onScroll q =
      Except.ok
        (((decisionTable s e.scrollTop e.scrollHeight e.offsetHeight).perform s q).1.scheduleIfDirty
          ((decisionTable s e.scrollTop e.scrollHeight e.offsetHeight).perform s q).2) := by
    simp only [Scroller._onScroll, hj, ht, Scroller.measure, decisionTable]
    have h5 : s.lineCount ≤ s.endPosition + 2 ↔ ¬ s.endPosition < s.lineCount - 2 := by
      constructor <;> intro h <;> omega
    cases hs : s.sticky <;>
      by_cases h1 : e.scrollTop < s.expandDistance <;>
      by_cases h2 : e.scrollTop + e.offsetHeight > e.scrollHeight - s.expandDistance <;>
      by_cases h3 : e.scrollTop + e.offsetHeight > e.scrollHeight - 10 <;>
      by_cases h4 : s.startPosition > s.lineOffset <;>
      by_cases h6 : s.endPosition < s.lineCount - 2 <;>
      simp [h1, h2, h3, h4, h5, h6, hj, ht, ScrollAction.perform]
  refine ⟨main, ?_⟩
  intro hn
  refine ⟨_, main, ?_⟩
  rw [hn]
  exact ⟨(scheduleIfDirty_window s q).2.2.2.1, (scheduleIfDirty_window s q).2.2.2.2,
    scheduleIfDirty_flags s q⟩

/-- Claim C10 on a viewer at the top of the window 4 to 6: the second row of
the table matches and the window grows toward older content. -/
theorem onScroll_decisionTable_witness :
    scrolledAway.jumpToBottom = false ∧ scrolledAway.target = some smallViewport ∧
    decisionTable scrolledAway smallViewport.scrollTop smallViewport.scrollHeight
      smallViewport.offsetHeight = ScrollAction.expandOlder ∧
    scrolledAway._onScroll FrameQueue.empty =
      Except.ok
        (((decisionTable scrolledAway smallViewport.scrollTop smallViewport.scrollHeight
            smallViewport.offsetHeight).perform scrolledAway FrameQueue.empty).1.scheduleIfDirty
          ((decisionTable scrolledAway smallViewport.scrollTop smallViewport.scrollHeight
            smallViewport.offsetHeight).perform scrolledAway FrameQueue.empty).2) :=
  ⟨rfl, rfl, by decide,
    (onScroll_decisionTable scrolledAway FrameQueue.empty smallViewport rfl rfl).1⟩

/-! ## A pending jump (C11) -/

/-- Claim C11.  While a jump to the bottom is pending, `_onScroll` returns the
Scroller, its viewport and the scheduler as they were, whatever the viewport
measures and whether or not there is a viewport. -/
theorem onScroll_pending_jump (s : Scroller) (q : FrameQueue) (hj : s.jumpToBottom = true) :
    s._onScroll q = Except.ok (s, q) := by
  simp [Scroller._onScroll, hj]

/-- Claim C11 on a Scroller that was just constructed. -/
theorem onScroll_pending_jump_witness :
    freshScroller.jumpToBottom = true ∧
    freshScroller._onScroll FrameQueue.empty = Except.ok (freshScroller, FrameQueue.empty) :=
  ⟨rfl, onScroll_pending_jump freshScroller FrameQueue.empty rfl⟩

/-! ## Scheduled redraws (C12) -/

theorem scheduleIfDirty_coalesced (s : Scroller) (q : FrameQueue)
    (h : Page.Coalesced { scroller := s, frames := q }) :
    Page.Coalesced { scroller := (s.scheduleIfDirty q).1, frames := (s.scheduleIfDirty q).2 } := by
  obtain ⟨h1, h2⟩ := h
  unfold Scroller.scheduleIfDirty
  split
  · rename_i hc
    simp only [Bool.and_eq_true, Bool.not_eq_true'] at hc
    have hnil : q.pending = [] := by
      by_contra hne
      have := h2 hne
      simp only at this
      rw [hc.2] at this
      exact absurd this (by decide)
    simp only [Page.Coalesced, requestAnimationFrame, hnil, List.nil_append, List.length_singleton,
      le_refl, truthy, true_and]
    intro _
    simp
  · exact ⟨h1, h2⟩

theorem setLines_animateRequest (s : Scroller) (newLines : List String) (offset : Int) :
    (s.setLines newLines offset).animateRequest = s.animateRequest := by
  unfold Scroller.setLines
  simp only
  split
  · split <;> rfl
  · split <;> rfl

theorem expandBottom_animateRequest (s : Scroller) :
    s._expandBottom.animateRequest = s.animateRequest := by
  unfold Scroller._expandBottom
  simp only
  split <;> rfl

theorem expandTop_coalesced (s : Scroller) (q : FrameQueue)
    (h : Page.Coalesced { scroller := s, frames := q }) :
    Page.Coalesced { scroller := (s._expandTop q).1, frames := (s._expandTop q).2 } := by
  unfold Scroller._expandTop
  simp only
  split
  · exact h
  · exact scheduleIfDirty_coalesced _ q h

theorem onScroll_coalesced (s : Scroller) (q : FrameQueue) (r : Scroller × FrameQueue)
    (h : Page.Coalesced { scroller := s, frames := q }) (hr : s._onScroll q = Except.ok r) :
    Page.Coalesced { scroller := r.1, frames := r.2 } := by
  unfold Scroller._onScroll at hr
  by_cases hj : s.jumpToBottom = true
  · simp only [hj, if_true, Except.ok.injEq] at hr
    rw [← hr]
    exact h
  · simp only [hj, if_false, Bool.false_eq_true] at hr
    cases ht : s.target with
    | none => simp [ht] at hr
    | some e =>
      simp only [ht, Except.ok.injEq] at hr
      rw [← hr]
      apply scheduleIfDirty_coalesced
      split
      · split
        · exact h
        · exact h
      · split
        · exact expandTop_coalesced s q h
        · split
          · split
            · exact ⟨h.1, by rw [expandBottom_animateRequest]; exact h.2⟩
            · split
              · exact h
              · exact h
          · exact h

theorem step_coalesced (p p1 : Page) (op : Op) (h : p.Coalesced) (hg : op.guarded)
    (hs : p.step op = some p1) : p1.Coalesced := by
  cases op with
  | setLines newLines offset =>
    simp only [Page.step, Option.some.injEq] at hs
    rw [← hs]
    exact ⟨h.1, by rw [setLines_animateRequest]; exact h.2⟩
  | reset =>
    simp only [Page.step, Option.some.injEq] at hs
    rw [← hs]
    exact h
  | requestRefresh => exact absurd hg (by simp [Op.guarded])
  | refresh => exact absurd hg (by simp [Op.guarded])
  | frame =>
    simp only [Page.step] at hs
    split at hs
    · exact absurd hs (by simp)
    · rename_i x rest hp
      simp only [Option.some.injEq] at hs
      rw [← hs]
      have hlen := h.1
      rw [hp] at hlen
      have hrest : rest = [] := by
        cases rest with
        | nil => rfl
        | cons y ys => simp at hlen
      simp [Page.Coalesced, hrest]
  | surface scrollTop offsetHeight scrollHeightOf =>
    simp only [Page.step, Option.some.injEq] at hs
    rw [← hs]
    exact h
  | scroll =>
    simp only [Page.step] at hs
    split at hs
    · rename_i r hr
      simp only [Option.some.injEq] at hs
      rw [← hs]
      exact onScroll_coalesced _ _ r h hr
    · exact absurd hs (by simp)
  | expandTop =>
    simp only [Page.step, Option.some.injEq] at hs
    rw [← hs]
    exact expandTop_coalesced _ _ h
  | expandBottom =>
    simp only [Page.step, Option.some.injEq] at hs
    rw [← hs]
    exact ⟨h.1, by rw [expandBottom_animateRequest]; exact h.2⟩

theorem run_coalesced (ops : List Op) (p p1 : Page) (h : p.Coalesced)
    (hg : ∀ op ∈ ops, op.guarded) (hr : p.run ops = some p1) : p1.Coalesced := by
  induction ops generalizing p with
  | nil =>
    simp only [Page.run, Option.some.injEq] at hr
    rw [← hr]
    exact h
  | cons op ops ih =>
    simp only [Page.run] at hr
    cases hs : p.step op with
    | none => simp [hs] at hr
    | some p2 =>
      simp only [hs, Option.some_bind] at hr
      exact ih p2 (step_coalesced p p2 op h (hg op (by simp)) hs)
        (fun o ho => hg o (by simp [ho])) hr

theorem requestRefresh_pending (s : Scroller) (q : FrameQueue) (e : Element)
    (ht : s.target = some e) :
    (s.requestRefresh q).2.pending.length = q.pending.length + 1 := by
  simp [Scroller.requestRefresh, ht, requestAnimationFrame]

/-- Claim C12 fails in the code.  On a Scroller with a viewport, two calls of
`requestRefresh` with no frame in between leave two redraws scheduled, under
the handles 1 and 2: `requestRefresh` does not look at `animateRequest` before
it schedules, as `_expandTop` and `_onScroll` do. -/
theorem requestRefresh_piles_up :
    ∃ p : Page, (Page.initial (some smallViewport) Options.none).run doubleRefreshTrace = some p ∧
      p.frames.pending = [1, 2] ∧ p.scroller.animateRequest = some 2 ∧
      ¬ p.frames.pending.length ≤ 1 :=
  ⟨_, rfl, by decide⟩

/-! ## Without a viewport (C13) -/

/-- Claim C13, as stated, fails.  Without a viewport `_expandTop` moves the
start of the window (8 to 6 after ten lines arrived with a page of 2 lines),
`_expandBottom` moves its end (0 to 2 right after construction), and
`_onScroll` throws when no jump is pending, on reading the height of the
missing viewport. -/
theorem detached_moves :
    detachedTail.target.isNone = true ∧
    detachedTail.startPosition = 8 ∧
    (detachedTail._expandTop FrameQueue.empty).1.startPosition = 6 ∧
    smallDetached.target.isNone = true ∧
    smallDetached.endPosition = 0 ∧
    smallDetached._expandBottom.endPosition = 2 ∧
    detachedIdle.target.isNone = true ∧
    detachedIdle.jumpToBottom = false ∧
    (match detachedIdle._onScroll FrameQueue.empty with
      | Except.ok _ => false
      | Except.error _ => true) = true := by
  decide

/-- Claim C13, amended.  Without a viewport `requestRefresh` changes nothing,
the redraw only clears `animateRequest`, `_expandTop` changes only the start
of the window and `_expandBottom` only its end, each to the value it takes
with a viewport, and `_onScroll` changes nothing while a jump is pending. -/
theorem detached_safe (s : Scroller) (q : FrameQueue) (ht : s.target = none) :
    s.requestRefresh q = (s, q) ∧
    s._renderVisible = { s with animateRequest := none } ∧
    s._expandTop q =
      ({ s with startPosition := max s.lineOffset (s.startPosition - s.visibleCount) }, q) ∧
    s._expandBottom =
      { s with endPosition := min s.lineCount (s.endPosition + s.visibleCount) } ∧
    (s.jumpToBottom = true → s._onScroll q = Except.ok (s, q)) := by
  refine ⟨?_, ?_, ?_, ?_, ?_⟩
  · simp only [Scroller.requestRefresh, ht]
  · simp only [Scroller._renderVisible, ht]
  · simp only [Scroller._expandTop, ht]
  · simp only [Scroller._expandBottom, ht]
  · intro hj
    simp [Scroller._onScroll, hj]

/-- Claim C13, amended, on a Scroller constructed without a viewport. -/
theorem detached_safe_witness :
    smallDetached.target = none ∧
    smallDetached.requestRefresh FrameQueue.empty = (smallDetached, FrameQueue.empty) ∧
    smallDetached._expandBottom =
      { smallDetached with
        endPosition :=
          min smallDetached.lineCount (smallDetached.endPosition + smallDetached.visibleCount) } ∧
    smallDetached._onScroll FrameQueue.empty = Except.ok (smallDetached, FrameQueue.empty) :=
  ⟨rfl, (detached_safe smallDetached FrameQueue.empty rfl).1,
    (detached_safe smallDetached FrameQueue.empty rfl).2.2.2.1,
    (detached_safe smallDetached FrameQueue.empty rfl).2.2.2.2 rfl⟩

/-! ## Construction (C14) -/

theorem construct_sticky (targetElement : Option Element) (options : Options) :
    (Scroller.construct targetElement options).sticky = true ∧
    (Scroller.construct targetElement options).jumpToBottom = true := by
  unfold Scroller.construct orBool
  cases options.sticky <;> simp

/-- Claim C14 fails in the code.  Constructed with `{sticky: false}` the
Scroller is in sticky mode with a jump pending, since `options.sticky || true`
is `true` whatever the option; in the same way a `visibleCount` of 0 and an
`expandDistance` of 0 are replaced by 50 and 200. -/
theorem construct_ignores_sticky :
    unstickyOptions.sticky = some false ∧
    (Scroller.construct none unstickyOptions).sticky = true ∧
    (Scroller.construct none unstickyOptions).jumpToBottom = true ∧
    (Scroller.construct none zeroOptions).visibleCount = 50 ∧
    (Scroller.construct none zeroOptions).expandDistance = 200 := by
  decide

/-! ## The jump to the bottom (C15) -/

set_option maxRecDepth 100000 in
/-- Claim C15 fails in the code.  With a page of 300 lines of 20 pixels in a
viewport 400 pixels high, the redraw that carries out the jump clears
`jumpToBottom` and `dirty` and assigns the scroll offset 4000, while the
scroll extent is 6000 and the maximum scroll offset 5600: the viewport shows
the offset 4000, 1600 pixels above the bottom. -/
theorem jump_falls_short :
    tallScroller.dirty = true ∧ tallScroller.jumpToBottom = true ∧
    tallScroller.target.isSome = true ∧
    tallScroller._renderVisible.jumpToBottom = false ∧
    tallScroller._renderVisible.dirty = false ∧
    tallScroller._renderVisible.target.map Element.scrollHeight = some 6000 ∧
    tallScroller._renderVisible.target.map Element.scrollTop = some 4000 ∧
    tallScroller._renderVisible.target.map Element.shownScrollTop = some 4000 ∧
    tallScroller._renderVisible.target.map Element.maxScrollTop = some 5600 := by
  decide

/-! ## The sticky window is computed twice (C16) -/

/-- Claim C16.  In sticky mode with a viewport attached, a redraw right after
`setLines` leaves start and end of the window as `setLines` computed them; and
every owed redraw in sticky mode, on the same lines, offset and page size,
computes the window that the sticky branch of `setLines` computes. -/
theorem sticky_recomputed (s : Scroller) (e : Element) (newLines : List String) (offset : Int)
    (hs : s.sticky = true) (ht : s.target = some e) :
    (s.setLines newLines offset)._renderVisible.startPosition =
      (s.setLines newLines offset).startPosition ∧
    (s.setLines newLines offset)._renderVisible.endPosition =
      (s.setLines newLines offset).endPosition ∧
    (∀ t : Scroller, t.sticky = true → t.dirty = true → t.target.isSome = true →
      t.lines = newLines → t.lineOffset = offset → t.visibleCount = s.visibleCount →
      t._renderVisible.startPosition = (s.setLines newLines offset).startPosition ∧
      t._renderVisible.endPosition = (s.setLines newLines offset).endPosition) := by
  have hset : (s.setLines newLines offset).startPosition =
        max offset ((newLines.length : Int) + offset - s.visibleCount) ∧
      (s.setLines newLines offset).endPosition = (newLines.length : Int) + offset := by
    simp only [Scroller.setLines, Scroller.lineCount, hs, if_true]
    split <;> exact ⟨rfl, rfl⟩
  have hredraw : ∀ t : Scroller, t.sticky = true → t.dirty = true → t.target.isSome = true →
      t._renderVisible.startPosition =
        max t.lineOffset ((t.lines.length : Int) + t.lineOffset - t.visibleCount) ∧
      t._renderVisible.endPosition = (t.lines.length : Int) + t.lineOffset := by
    intro t h1 h2 h3
    obtain ⟨e1, he1⟩ := Option.isSome_iff_exists.mp h3
    unfold Scroller._renderVisible
    simp only [he1, h1, h2, if_true, Scroller.lineCount]
    split <;> exact ⟨rfl, rfl⟩
  have hafter : (s.setLines newLines offset).sticky = true ∧
      (s.setLines newLines offset).dirty = true ∧
      (s.setLines newLines offset).target.isSome = true ∧
      (s.setLines newLines offset).lines = newLines ∧
      (s.setLines newLines offset).lineOffset = offset ∧
      (s.setLines newLines offset).visibleCount = s.visibleCount := by
    simp only [Scroller.setLines, Scroller.lineCount, hs, if_true]
    split <;> simp [hs, ht]
  obtain ⟨a1, a2, a3, a4, a5, a6⟩ := hafter
  have h := hredraw _ a1 a2 a3
  rw [a4, a5, a6] at h
  refine ⟨by rw [h.1, hset.1], by rw [h.2, hset.2], ?_⟩
  intro t h1 h2 h3 h4 h5 h6
  have ht2 := hredraw t h1 h2 h3
  rw [h4, h5, h6] at ht2
  exact ⟨by rw [ht2.1, hset.1], by rw [ht2.2, hset.2]⟩

/-- Claim C16 on a Scroller with a viewport that receives four lines at
offset 1. -/
theorem sticky_recomputed_witness :
    attachedScroller.sticky = true ∧ attachedScroller.target = some smallViewport ∧
    (attachedScroller.setLines ["a", "b", "c", "d"] 1)._renderVisible.startPosition =
      (attachedScroller.setLines ["a", "b", "c", "d"] 1).startPosition ∧
    (attachedScroller.setLines ["a", "b", "c", "d"] 1)._renderVisible.endPosition =
      (attachedScroller.setLines ["a", "b", "c", "d"] 1).endPosition :=
  ⟨rfl, rfl,
    (sticky_recomputed attachedScroller smallViewport ["a", "b", "c", "d"] 1 rfl rfl).1,
    (sticky_recomputed attachedScroller smallViewport ["a", "b", "c", "d"] 1 rfl rfl).2.1⟩

/-! ## The steps of the two expansions (C17, C18) -/

theorem expandTop_fields (s : Scroller) (q : FrameQueue) (e : Element)
    (ht : s.target = some e) :
    (s._expandTop q).1.startPosition = max s.lineOffset (s.startPosition - s.visibleCount) ∧
    (s._expandTop q).1.sticky = false ∧
    (s._expandTop q).1.endPosition =
      min s.endPosition ((s._expandTop q).1.startPosition + 2 * s.visibleCount) ∧
    ((s._expandTop q).1.dirty = true ↔ (s._expandTop q).1.endPosition ≠ s.endPosition) ∧
    ((s._expandTop q).1.dirty = true → truthy s.animateRequest = false →
      (s._expandTop q).2 = (requestAnimationFrame q).2 ∧
      (s._expandTop q).1.animateRequest = some (requestAnimationFrame q).1) ∧
    ((s._expandTop q).1.dirty = true → truthy s.animateRequest = true →
      (s._expandTop q).2 = q ∧ (s._expandTop q).1.animateRequest = s.animateRequest) ∧
    ((s._expandTop q).1.dirty = false →
      (s._expandTop q).2 = q ∧ (s._expandTop q).1.animateRequest = s.animateRequest) := by
  have h2 : s.visibleCount * 2 = 2 * s.visibleCount := by ring
  simp only [Scroller._expandTop, ht, Scroller.scheduleIfDirty, h2]
  by_cases hc : s.endPosition =
      min s.endPosition (max s.lineOffset (s.startPosition - s.visibleCount) + 2 * s.visibleCount)
  · have hd : decide (s.endPosition ≠ min s.endPosition
        (max s.lineOffset (s.startPosition - s.visibleCount) + 2 * s.visibleCount)) = false := by
      simp [← hc]
    simp only [hd, Bool.false_and, Bool.false_eq_true, if_false]
    refine ⟨trivial, trivial, trivial, ?_, ?_, ?_, ?_⟩
    · constructor
      · intro h
        exact absurd h (by decide)
      · intro h
        exact absurd hc.symm h
    · intro h
      exact absurd h (by decide)
    · intro h
      exact absurd h (by decide)
    · intro _
      exact ⟨trivial, trivial⟩
  · have hd : decide (s.endPosition ≠ min s.endPosition
        (max s.lineOffset (s.startPosition - s.visibleCount) + 2 * s.visibleCount)) = true := by
      simp [hc]
    simp only [hd, Bool.true_and]
    cases ha : truthy s.animateRequest
    · simp only [Bool.not_false, if_true]
      refine ⟨trivial, trivial, trivial, ?_, ?_, ?_, ?_⟩
      · exact ⟨fun _ h => hc h.symm, fun _ => trivial⟩
      · intro _ _
        exact ⟨trivial, trivial⟩
      · intro _ h
        exact absurd h (by decide)
      · intro h
        exact absurd h (by decide)
    · simp only [Bool.not_true, Bool.false_eq_true, if_false]
      refine ⟨trivial, trivial, trivial, ?_, ?_, ?_, ?_⟩
      · exact ⟨fun _ h => hc h.symm, fun _ => trivial⟩
      · intro _ h
        exact absurd h (by decide)
      · intro _ _
        exact ⟨trivial, trivial⟩
      · intro h
        exact absurd h (by decide)

/-- Claim C17, as stated, fails.  After a redraw was requested and `refresh`
was called directly, the requested frame is still pending while
`animateRequest` is null; an `_expandTop` that changes the end of the window
then schedules a second redraw on top of the pending one. -/
theorem expandTop_piles_up :
    ∃ p : Page, (Page.initial (some smallViewport) smallOptions).run pileUpTrace = some p ∧
      p.scroller.target.isSome = true ∧
      p.frames.pending = [1] ∧ p.scroller.animateRequest = none ∧
      p.scroller.endPosition = 8 ∧
      (p.scroller._expandTop p.frames).1.endPosition = 6 ∧
      (p.scroller._expandTop p.frames).1.dirty = true ∧
      (p.scroller._expandTop p.frames).2.pending = [1, 2] :=
  ⟨_, rfl, by decide⟩

/-- Claim C17, amended.  With a viewport attached, `_expandTop` moves the start
of the window one page down, not below `lineOffset`, leaves sticky mode, caps
the end at two pages after the new start, and is dirty exactly when the end
changed; it then schedules a redraw when `animateRequest` holds no handle, and
otherwise leaves the scheduler and `animateRequest` alone.  When
`animateRequest` holds a handle exactly while a redraw is pending, that is: a
redraw is scheduled unless one was already pending. -/
theorem expandTop_steps (s : Scroller) (q : FrameQueue) (e : Element)
    (ht : s.target = some e) :
    (s._expandTop q).1.startPosition = max s.lineOffset (s.startPosition - s.visibleCount) ∧
    (s._expandTop q).1.sticky = false ∧
    (s._expandTop q).1.endPosition =
      min s.endPosition ((s._expandTop q).1.startPosition + 2 * s.visibleCount) ∧
    ((s._expandTop q).1.dirty = true ↔ (s._expandTop q).1.endPosition ≠ s.endPosition) ∧
    ((s._expandTop q).1.dirty = true → truthy s.animateRequest = false →
      (s._expandTop q).2 = (requestAnimationFrame q).2 ∧
      (s._expandTop q).1.animateRequest = some (requestAnimationFrame q).1) ∧
    ((s._expandTop q).1.dirty = true → truthy s.animateRequest = true →
      (s._expandTop q).2 = q ∧ (s._expandTop q).1.animateRequest = s.animateRequest) ∧
    ((s._expandTop q).1.dirty = false →
      (s._expandTop q).2 = q ∧ (s._expandTop q).1.animateRequest = s.animateRequest) ∧
    ((truthy s.animateRequest = true ↔ q.pending ≠ []) →
      (s._expandTop q).1.dirty = true →
        (q.pending = [] →
          (s._expandTop q).2.pending = [(requestAnimationFrame q).1] ∧
          (s._expandTop q).1.animateRequest = some (requestAnimationFrame q).1) ∧
        (q.pending ≠ [] →
          (s._expandTop q).2 = q ∧ (s._expandTop q).1.animateRequest = s.animateRequest)) := by
  obtain ⟨h1, h2, h3, h4, h5, h6, h7⟩ := expandTop_fields s q e ht
  refine ⟨h1, h2, h3, h4, h5, h6, h7, ?_⟩
  intro hsync hd
  constructor
  · intro hnil
    have hfalse : truthy s.animateRequest = false := by
      cases hta : truthy s.animateRequest
      · rfl
      · exact absurd hnil (hsync.mp hta)
    obtain ⟨hq, ha⟩ := h5 hd hfalse
    refine ⟨?_, ha⟩
    rw [hq]
    simp [requestAnimationFrame, hnil]
  · intro hne
    exact h6 hd (hsync.mpr hne)

/-- Claim C17, amended, on a window 4 to 8 with a page of 2 lines: the start
moves to 2, the end to 6, and a redraw is scheduled. -/
theorem expandTop_steps_witness :
    wideWindow.target = some smallViewport ∧
    (wideWindow._expandTop FrameQueue.empty).1.startPosition = 2 ∧
    (wideWindow._expandTop FrameQueue.empty).1.endPosition = 6 ∧
    (wideWindow._expandTop FrameQueue.empty).1.dirty = true ∧
    (wideWindow._expandTop FrameQueue.empty).2.pending = [1] ∧
    (wideWindow._expandTop FrameQueue.empty).1.sticky = false ∧
    ((wideWindow._expandTop FrameQueue.empty).1.dirty = true ↔
      (wideWindow._expandTop FrameQueue.empty).1.endPosition ≠ wideWindow.endPosition) ∧
    (wideWindow._expandTop FrameQueue.empty).2.pending =
      [(requestAnimationFrame FrameQueue.empty).1] :=
  ⟨rfl, by decide, by decide, by decide, by decide,
    (expandTop_steps wideWindow FrameQueue.empty smallViewport rfl).2.1,
    (expandTop_steps wideWindow FrameQueue.empty smallViewport rfl).2.2.2.1,
    (((expandTop_steps wideWindow FrameQueue.empty smallViewport rfl).2.2.2.2.2.2.2
      ⟨fun h => absurd h (by decide), fun h => absurd rfl h⟩ (by decide)).1 rfl).1⟩

/-- Claim C18.  With a viewport attached, `_expandBottom` moves the end of the
window one page up, not above the total, puts the start two pages before the
new end, not below `lineOffset`, clears dirty, leaves sticky and jumpToBottom
alone, and leaves the viewport with the content of the new window and with
the scroll offset read after the first content write minus what the scroll
extent lost between the first and the second content write. -/
theorem expandBottom_steps (s : Scroller) (e : Element) (ht : s.target = some e) :
    s._expandBottom.endPosition = min s.lineCount (s.endPosition + s.visibleCount) ∧
    s._expandBottom.startPosition =
      max s.lineOffset
        (min (s.lineCount - 2 * s.visibleCount)
          (s._expandBottom.endPosition - 2 * s.visibleCount)) ∧
    s._expandBottom.startPosition =
      max s.lineOffset (s._expandBottom.endPosition - 2 * s.visibleCount) ∧
    s._expandBottom.dirty = false ∧
    s._expandBottom.sticky = s.sticky ∧
    s._expandBottom.jumpToBottom = s.jumpToBottom ∧
    ∃ e3 : Element, s._expandBottom.target = some e3 ∧
      e3.innerHTML = s._expandBottom._generateContent ∧
      e3.scrollTop =
        (e.setInnerHTML
          ({ s with endPosition := min s.lineCount (s.endPosition + s.visibleCount) }
            : Scroller)._generateContent).scrollTop -
        ((e.setInnerHTML
          ({ s with endPosition := min s.lineCount (s.endPosition + s.visibleCount) }
            : Scroller)._generateContent).scrollHeight - e3.scrollHeight) := by
  have h2 : s.visibleCount * 2 = 2 * s.visibleCount := by ring
  simp only [Scroller._expandBottom, ht, h2]
  refine ⟨?_, ?_, ?_, ?_, ?_, ?_, ?_⟩
  · trivial
  · rfl
  · simp only [Scroller.lineCount]
    omega
  · trivial
  · trivial
  · trivial
  · exact ⟨_, rfl, rfl, rfl⟩

/-- Claim C18 on a window 4 to 6 of eight lines with a page of 2 lines: the
window becomes 4 to 8. -/
theorem expandBottom_steps_witness :
    scrolledAway.target = some smallViewport ∧
    scrolledAway._expandBottom.endPosition = 8 ∧
    scrolledAway._expandBottom.startPosition = 4 ∧
    scrolledAway._expandBottom.endPosition =
      min scrolledAway.lineCount (scrolledAway.endPosition + scrolledAway.visibleCount) ∧
    scrolledAway._expandBottom.dirty = false :=
  ⟨rfl, by decide, by decide, (expandBottom_steps scrolledAway smallViewport rfl).1,
    (expandBottom_steps scrolledAway smallViewport rfl).2.2.2.1⟩

/-! ## setLines outside sticky mode (C19) -/

/-- Claim C19.  Outside sticky mode `setLines` keeps the size of the window,
puts its start at the greater of the old start and the new offset, leaves
sticky and jumpToBottom alone and sets dirty. -/
theorem setLines_free (s : Scroller) (newLines : List String) (offset : Int)
    (hs : s.sticky = false) :
    (s.setLines newLines offset).endPosition - (s.setLines newLines offset).startPosition =
      s.endPosition - s.startPosition ∧
    (s.setLines newLines offset).startPosition = max s.startPosition offset ∧
    (s.setLines newLines offset).sticky = s.sticky ∧
    (s.setLines newLines offset).jumpToBottom = s.jumpToBottom ∧
    (s.setLines newLines offset).dirty = true := by
  unfold Scroller.setLines
  by_cases hgt : offset > s.startPosition
  · simp only [hs, hgt, if_true, Bool.false_eq_true, if_false]
    refine ⟨by ring, ?_, trivial, trivial, trivial⟩
    rw [max_eq_right (le_of_lt hgt)]
    ring
  · simp only [hs, hgt, if_false, Bool.false_eq_true]
    refine ⟨trivial, ?_, trivial, trivial, trivial⟩
    rw [max_eq_left (not_lt.mp hgt)]

/-- Claim C19 on the state of the trim example. -/
theorem setLines_free_witness :
    trimState.sticky = false ∧
    (trimState.setLines trimState.lines 15).endPosition -
      (trimState.setLines trimState.lines 15).startPosition =
        trimState.endPosition - trimState.startPosition ∧
    (trimState.setLines trimState.lines 15).startPosition = max trimState.startPosition 15 :=
  ⟨rfl, (setLines_free trimState trimState.lines 15 rfl).1,
    (setLines_free trimState trimState.lines 15 rfl).2.1⟩

/-! ## The operations keep the window invariant (C20) -/

theorem onScroll_returns (s : Scroller) (q : FrameQueue)
    (h : s.jumpToBottom = true ∨ s.target.isSome = true) :
    ∃ r : Scroller × FrameQueue, s._onScroll q = Except.ok r := by
  unfold Scroller._onScroll
  cases hj : s.jumpToBottom
  · rcases h with h | h
    · rw [hj] at h
      exact absurd h (by decide)
    · obtain ⟨e, he⟩ := Option.isSome_iff_exists.mp h
      simp only [he, Bool.false_eq_true, if_false]
      exact ⟨_, rfl⟩
  · exact ⟨_, rfl⟩

theorem expandTop_positions (s : Scroller) (q : FrameQueue) (h : WindowInv s)
    (hv : 0 ≤ s.visibleCount) :
    (s._expandTop q).1.startPosition ≤ s.startPosition ∧
    (s._expandTop q).1.endPosition ≤ s.endPosition := by
  obtain ⟨h1, h2, h3⟩ := h
  unfold Scroller._expandTop
  cases ht : s.target with
  | none =>
    simp only [ht]
    omega
  | some e =>
    simp only [ht]
    rw [(scheduleIfDirty_window _ q).2.2.2.1, (scheduleIfDirty_window _ q).2.2.2.2]
    simp only
    omega

theorem expandBottom_positions (s : Scroller) (h : WindowInv s) (hv : 0 ≤ s.visibleCount) :
    s.endPosition ≤ s._expandBottom.endPosition := by
  obtain ⟨h1, h2, h3⟩ := h
  unfold Scroller._expandBottom
  cases ht : s.target with
  | none =>
    simp only [ht, Scroller.lineCount]
    omega
  | some e =>
    simp only [ht, Scroller.lineCount]
    omega

/-- Claim C20.  From a state with a positive page size whose window lies
inside the buffer, the window lies inside the buffer again after `_expandTop`,
after `_expandBottom`, after the redraw, and after `_onScroll` whenever it
returns, which it does when a viewport is attached or a jump is pending;
`_expandTop` increases neither start nor end, and `_expandBottom` does not
decrease the end. -/
theorem windowInv_preserved (s : Scroller) (q : FrameQueue)
    (hinv : s.lineOffset ≤ s.startPosition ∧ s.startPosition ≤ s.endPosition ∧
      s.endPosition ≤ s.lineOffset + s.lines.length)
    (hv : 0 < s.visibleCount) :
    WindowInv (s._expandTop q).1 ∧ WindowInv s._expandBottom ∧ WindowInv s._renderVisible ∧
    (∀ r : Scroller × FrameQueue, s._onScroll q = Except.ok r → WindowInv r.1) ∧
    (s.jumpToBottom = true ∨ s.target.isSome = true →
      ∃ r : Scroller × FrameQueue, s._onScroll q = Except.ok r ∧ WindowInv r.1) ∧
    (s._expandTop q).1.startPosition ≤ s.startPosition ∧
    (s._expandTop q).1.endPosition ≤ s.endPosition ∧
    s.endPosition ≤ s._expandBottom.endPosition := by
  have hs : s.Sound := ⟨hinv, le_of_lt hv⟩
  refine ⟨(expandTop_sound s q hs).1, (expandBottom_sound s hs).1, (renderVisible_sound s hs).1,
    fun r hr => (onScroll_sound s q r hs hr).1, ?_, (expandTop_positions s q hinv hs.2).1,
    (expandTop_positions s q hinv hs.2).2, expandBottom_positions s hinv hs.2⟩
  intro h
  obtain ⟨r, hr⟩ := onScroll_returns s q h
  exact ⟨r, hr, (onScroll_sound s q r hs hr).1⟩

/-- Claim C20 on a window 4 to 6 of eight lines with a viewport. -/
theorem windowInv_preserved_witness :
    WindowInv (scrolledAway._expandTop FrameQueue.empty).1 ∧
    WindowInv scrolledAway._expandBottom ∧ WindowInv scrolledAway._renderVisible ∧
    (∃ r : Scroller × FrameQueue, scrolledAway._onScroll FrameQueue.empty = Except.ok r ∧
      WindowInv r.1) :=
  ⟨(windowInv_preserved scrolledAway FrameQueue.empty (by decide) (by decide)).1,
   (windowInv_preserved scrolledAway FrameQueue.empty (by decide) (by decide)).2.1,
   (windowInv_preserved scrolledAway FrameQueue.empty (by decide) (by decide)).2.2.1,
   (windowInv_preserved scrolledAway FrameQueue.empty (by decide) (by decide)).2.2.2.2.1
     (Or.inr rfl)⟩

end Scrollium
